import Mathlib

/-!
Verification of the qiskit-ionq provider plugin.

This file gives a shallow embedding of the parts of the repository that the
claims concern: credential resolution (`qiskit_ionq_provider/ionq_provider.py`),
calibration lookup (`qiskit_ionq/ionq_client.py`), and the job module
(`ionq_job`: the counts remapper `_remap_counts` and the `IonQJob` lifecycle).
The job module's implementation file is not part of the source snapshot (only
its tests are), so those definitions are modelled from the specification and
validated against the concrete expectations recorded in
`test/ionq_job/test_job.py`.
-/

/-! ## Credential resolution (`qiskit_ionq_provider/ionq_provider.py`) -/

/-- Python truthiness of an optional string: `None` and `""` are falsy,
every other string is truthy.  This is the notion the `or` chains in
`resolve_credentials` use. -/
def pyTruthy : Option String → Bool
  | none => false
  | some s => !s.isEmpty

/-- Python `a or b` on optional strings: yields `a` when `a` is truthy,
otherwise `b`. -/
def pyOrStr (a b : Option String) : Option String :=
  if pyTruthy a then a else b

/-- The credentials dict returned by `resolve_credentials`: `token` and `url`
keys, each possibly `None`. -/
structure Credentials where
  token : Option String
  url : Option String
deriving DecidableEq, Repr

/-- The hard-coded default API url in `resolve_credentials`. -/
def defaultIonqUrl : String := "https://api.ionq.co/v0.1"

/-- Embedding of `resolve_credentials(token, url)`.  The environment reads
`os.environ.get("QISKIT_IONQ_API_TOKEN")` and
`os.environ.get("QISKIT_IONQ_API_URL")` are passed as the explicit arguments
`envToken` and `envUrl` (`none` when the variable is unset).  The body is
`token or env_token` and `url or env_url or "https://api.ionq.co/v0.1"`. -/
def resolve_credentials (token url envToken envUrl : Option String) : Credentials :=
  { token := pyOrStr token envToken
    url := pyOrStr (pyOrStr url envUrl) (some defaultIonqUrl) }

/-! ## Calibration lookup (`qiskit_ionq/ionq_client.py`) -/

/-- One entry of the server-returned backend list consumed by
`IonQClient.get_calibration_data`: its `backend` name field and its
`characterization_url` field. -/
structure BackendEntry where
  backend : String
  characterization_url : String
deriving DecidableEq, Repr

/-- The warnings `get_calibration_data` can emit via `warnings.warn`. -/
inductive CalWarning
  | responseDump
  | notFound (name : String)
  | multipleMatches (name : String)
  | noCalibrationData
deriving DecidableEq, Repr

/-- Result of the pure part of `get_calibration_data`: the warnings emitted and
either `none` (the Python function returned `None`) or the characterization
url it proceeds to fetch calibration data from. -/
structure CalibrationResult where
  warnings : List CalWarning
  data : Option String
deriving DecidableEq, Repr

/-- The filter in `get_calibration_data`:
`[b for b in response if backend_name.endswith(b.get("backend"))]`. -/
def calibrationMatches (backend_name : String) (response : List BackendEntry) :
    List BackendEntry :=
  response.filter fun b => backend_name.endsWith b.backend

/-- Embedding of `IonQClient.get_calibration_data` after the `backends` HTTP
response has been received and decoded as `response`.  It always warns with a
dump of the response, filters the list by suffix match, returns `None` with a
warning when no entry or more than one entry matches, returns `None` with a
warning when the single match has an empty `characterization_url`, and
otherwise proceeds to fetch from that url (dropping its first character when
building the path). -/
def get_calibration_data (backend_name : String) (response : List BackendEntry) :
    CalibrationResult :=
  let hits := calibrationMatches backend_name response
  if hits.length = 0 then
    { warnings := [.responseDump, .notFound backend_name], data := none }
  else if hits.length > 1 then
    { warnings := [.responseDump, .multipleMatches backend_name], data := none }
  else
    match hits.head? with
    | none => { warnings := [.responseDump, .notFound backend_name], data := none }
    | some b =>
      if b.characterization_url.length = 0 then
        { warnings := [.responseDump, .noCalibrationData], data := none }
      else
        { warnings := [.responseDump], data := some (b.characterization_url.drop 1) }

/-! ## Theorems: credentials -/

/-- The empty string literal is empty. -/
theorem empty_string_isEmpty : "".isEmpty = true := by decide

/-- C8: Credential resolution follows the precedence explicit argument >
environment variable > default, independently for token and url: when the
explicit arguments are either absent or non-empty, `resolve_credentials`
returns the explicit token if given and otherwise the environment token, and
the explicit url if given, otherwise the environment url if set, otherwise the
fixed default `"https://api.ionq.co/v0.1"`. -/
theorem resolve_credentials_precedence (t u et eu : Option String)
    (ht : ∀ s, t = some s → s ≠ "") (hu : ∀ s, u = some s → s ≠ "")
    (heu : ∀ s, eu = some s → s ≠ "") :
    (resolve_credentials t u et eu).token = (if t = none then et else t) ∧
    (resolve_credentials t u et eu).url =
      (if u = none then (if eu = none then some defaultIonqUrl else eu) else u) := by
  constructor
  · cases t with
    | none => simp [resolve_credentials, pyOrStr, pyTruthy]
    | some s =>
      have hs : ¬s.isEmpty := by
        simpa [String.isEmpty_iff] using ht s rfl
      simp [resolve_credentials, pyOrStr, pyTruthy, hs]
  · cases u with
    | none =>
      cases eu with
      | none => simp [resolve_credentials, pyOrStr, pyTruthy]
      | some s =>
        have hs : ¬s.isEmpty := by
          simpa [String.isEmpty_iff] using heu s rfl
        simp [resolve_credentials, pyOrStr, pyTruthy, hs]
    | some s =>
      have hs : ¬s.isEmpty := by
        simpa [String.isEmpty_iff] using hu s rfl
      simp [resolve_credentials, pyOrStr, pyTruthy, hs]

/-- Witness for C8 at a concrete input: explicit token and url both given and
non-empty win over set environment variables. -/
theorem resolve_credentials_precedence_witness :
    (resolve_credentials (some "tok") (some "u1") (some "envtok") (some "envurl")).token =
      (if (some "tok" : Option String) = none then some "envtok" else some "tok") ∧
    (resolve_credentials (some "tok") (some "u1") (some "envtok") (some "envurl")).url =
      (if (some "u1" : Option String) = none then
        (if (some "envurl" : Option String) = none then some defaultIonqUrl else some "envurl")
        else some "u1") :=
  resolve_credentials_precedence (some "tok") (some "u1") (some "envtok") (some "envurl")
    (by intro s hs; injection hs with h; subst h; decide)
    (by intro s hs; injection hs with h; subst h; decide)
    (by intro s hs; injection hs with h; subst h; decide)

/-- C10: `resolve_credentials` treats an explicitly supplied empty string the
same as an absent argument: for `token=""` the resolved token is exactly the
environment token (or `None` if unset), and for `url=""` the resolved url is
the environment url when that is set and non-empty, and the fixed default
otherwise; the empty explicit argument itself never survives resolution. -/
theorem resolve_credentials_empty_string (et eu : Option String) :
    resolve_credentials (some "") (some "") et eu =
      { token := et
        url := if eu = none ∨ eu = some "" then some defaultIonqUrl else eu } := by
  cases eu with
  | none => simp [resolve_credentials, pyOrStr, pyTruthy, empty_string_isEmpty]
  | some s =>
    by_cases hs : s = ""
    · subst hs; simp [resolve_credentials, pyOrStr, pyTruthy, empty_string_isEmpty]
    · have h : ¬s.isEmpty := by simpa [String.isEmpty_iff] using hs
      simp [resolve_credentials, pyOrStr, pyTruthy, empty_string_isEmpty, h, hs]

/-! ## Theorems: calibration lookup -/

/-- C9: Calibration lookup filters the server-returned backend list by suffix
match of the given backend name against each entry's `backend` field; whenever
that filter yields zero matches or more than one match, `get_calibration_data`
emits a warning and returns no data instead of raising an error. -/
theorem get_calibration_data_soft_failure (name : String) (response : List BackendEntry)
    (h : (calibrationMatches name response).length = 0 ∨
      1 < (calibrationMatches name response).length) :
    (get_calibration_data name response).data = none ∧
    (CalWarning.notFound name ∈ (get_calibration_data name response).warnings ∨
      CalWarning.multipleMatches name ∈ (get_calibration_data name response).warnings) := by
  rcases h with h | h
  · simp [get_calibration_data, h]
  · have h0 : ¬(calibrationMatches name response).length = 0 := by omega
    simp [get_calibration_data, h0, h]

/-- Witness for C9 at a concrete input: looking up a backend in an empty
server list yields zero matches, a warning and no data. -/
theorem get_calibration_data_soft_failure_witness :
    (get_calibration_data "ionq_qpu" []).data = none ∧
    (CalWarning.notFound "ionq_qpu" ∈ (get_calibration_data "ionq_qpu" []).warnings ∨
      CalWarning.multipleMatches "ionq_qpu" ∈ (get_calibration_data "ionq_qpu" []).warnings) :=
  get_calibration_data_soft_failure "ionq_qpu" [] (Or.inl (by decide))

/-! ## Counts remapper (`ionq_job._remap_counts`)

The `ionq_job` module itself is not included in the source snapshot; only its
tests are.  The definitions below are therefore modelled from the
specification's description of the counts remapper and checked against the
concrete inputs/outputs recorded in `test/ionq_job/test_job.py`. -/

/-- Modelled from the spec: the metadata of a raw result document, after the
JSON-encoded fields have been parsed — shot count, output map from logical
qubit index to classical bit position, and the header's number of classical
memory slots (`ionq_job` is not under `src/`). -/
structure ResultMetadata where
  shots : Nat
  output_map : List (Nat × Nat)
  memory_slots : Nat
deriving DecidableEq, Repr

/-- Modelled from the spec: the result data of a raw result document — a
histogram from an integer-encoded measurement outcome to its probability
weight (`ionq_job` is not under `src/`). -/
structure ResultData where
  histogram : List (Nat × ℚ)
deriving DecidableEq, Repr

/-- Modelled from the spec: a raw result document as `_remap_counts` receives
it.  `nonempty` records whether the underlying dict has any key at all (an
empty dict is falsy in the source language); each of the three fields the
remapper reads may be absent (`ionq_job` is not under `src/`). -/
structure RawDoc where
  nonempty : Bool
  qubits : Option Nat
  metadata : Option ResultMetadata
  data : Option ResultData
deriving DecidableEq, Repr

/-- The domain error raised by the job module, carrying a fixed human-readable
message. -/
structure IonQJobError where
  message : String
deriving DecidableEq, Repr

/-- Modelled from the spec: the value of classical bit `j` after projecting the
integer `outcome`, decoded as a fixed-width bit vector over `qubits` qubits,
through the output map; classical positions no logical qubit maps to read 0
(`ionq_job` is not under `src/`). -/
def clbitValue (output_map : List (Nat × Nat)) (qubits outcome j : Nat) : Nat :=
  match output_map.find? (fun p => p.2 == j) with
  | some p => if (outcome % 2 ^ qubits).testBit p.1 then 1 else 0
  | none => 0

/-- Modelled from the spec: the classical bitstring of width `width` for a raw
outcome, one character per memory slot, classical bit 0 rightmost
(`ionq_job` is not under `src/`). -/
def outcomeBitstring (output_map : List (Nat × Nat)) (qubits outcome width : Nat) : String :=
  String.mk ((List.range width).reverse.map fun j =>
    if clbitValue output_map qubits outcome j = 1 then '1' else '0')

/-- Modelled from the spec: additive accumulation into the bitstring-keyed
counts: an existing key has its count increased, a new key is appended
(`ionq_job` is not under `src/`). -/
def addCount (counts : List (String × Int)) (key : String) (c : Int) : List (String × Int) :=
  match counts with
  | [] => [(key, c)]
  | (k, v) :: rest => if k = key then (k, v + c) :: rest else (k, v) :: addCount rest key c

/-- Modelled from the spec: the remapping loop — for each histogram entry,
project the outcome through the output map into the classical register width,
convert the probability times the shot count to an integer count, and
accumulate additively (`ionq_job` is not under `src/`). -/
def remapHistogram (qubits : Nat) (md : ResultMetadata) (hist : List (Nat × ℚ)) :
    List (String × Int) :=
  hist.foldl
    (fun acc e =>
      addCount acc (outcomeBitstring md.output_map qubits e.1 md.memory_slots)
        (round (e.2 * (md.shots : ℚ))))
    []

/-- Modelled from the spec: `ionq_job._remap_counts` — validation in a fixed
order with a distinct fixed message per check (absent or empty document,
missing qubits, missing metadata, missing result data), then the remapping
loop (`ionq_job` is not under `src/`). -/
def _remap_counts (result : Option RawDoc) : Except IonQJobError (List (String × Int)) :=
  match result with
  | none => .error ⟨"Cannot remap counts without an API response!"⟩
  | some d =>
    if d.nonempty = false then .error ⟨"Cannot remap counts without an API response!"⟩
    else
      match d.qubits with
      | none => .error ⟨"Cannot remap counts without qubits!"⟩
      | some nq =>
        match d.metadata with
        | none => .error ⟨"Cannot remap counts without metadata!"⟩
        | some md =>
          match d.data with
          | none => .error ⟨"Cannot remap counts without result data!"⟩
          | some dat => .ok (remapHistogram nq md dat.histogram)

/-- The error message of a remap outcome, `none` on success. -/
def remapError : Except IonQJobError (List (String × Int)) → Option String
  | .error e => some e.message
  | .ok _ => none

/-- The raw result document of `test_remap_counts`: 3 qubits, histogram
`5 ↦ 0.5, 7 ↦ 0.5`, 100 shots, output map `0↦0, 1↦2, 2↦1`, 3 memory slots. -/
def remapTestDoc : RawDoc :=
  { nonempty := true
    qubits := some 3
    metadata := some { shots := 100, output_map := [(0, 0), (1, 2), (2, 1)], memory_slots := 3 }
    data := some { histogram := [(5, 1/2), (7, 1/2)] } }

/-- The raw result document of `test_remap_counts__can_be_additive`: same
histogram and shots, output map `0↦0, 2↦1`, 2 memory slots. -/
def remapAdditiveDoc : RawDoc :=
  { nonempty := true
    qubits := some 3
    metadata := some { shots := 100, output_map := [(0, 0), (2, 1)], memory_slots := 2 }
    data := some { histogram := [(5, 1/2), (7, 1/2)] } }

/-- C1: on the document with qubits=3, histogram `5 ↦ 0.5, 7 ↦ 0.5`, shots=100,
output map `0↦0, 1↦2, 2↦1` and register width 3, the counts remapper returns
exactly the mapping `"011" ↦ 50, "111" ↦ 50`. -/
theorem remap_counts_basic :
    _remap_counts (some remapTestDoc) = .ok [("011", 50), ("111", 50)] := by
  have step : _remap_counts (some remapTestDoc) =
      .ok [("011", round ((1/2 : ℚ) * ((100 : ℕ) : ℚ))),
           ("111", round ((1/2 : ℚ) * ((100 : ℕ) : ℚ)))] := rfl
  have hr : round ((1/2 : ℚ) * ((100 : ℕ) : ℚ)) = 50 := by norm_num [round_eq]
  rw [step, hr]

/-- C2: with the non-injective output map `0↦0, 2↦1` and register width 2, both
raw outcomes 5 and 7 collapse onto the single output bitstring "11" and the
counts merge additively to exactly `"11" ↦ 100`. -/
theorem remap_counts_additive :
    _remap_counts (some remapAdditiveDoc) = .ok [("11", 100)] := by
  have step : _remap_counts (some remapAdditiveDoc) =
      .ok [("11", round ((1/2 : ℚ) * ((100 : ℕ) : ℚ)) +
        round ((1/2 : ℚ) * ((100 : ℕ) : ℚ)))] := rfl
  have hr : round ((1/2 : ℚ) * ((100 : ℕ) : ℚ)) = 50 := by norm_num [round_eq]
  rw [step, hr]
  norm_num

/-- C4: the counts remapper validates its input in a fixed precedence order
and fails fast with a distinct message at the first violated check: absent or
empty document, then missing qubits, then missing metadata, then missing
result data, each with its exact message; a document passing all four checks
produces no error. -/
theorem remap_counts_validation_order (result : Option RawDoc) :
    remapError (_remap_counts result) =
      match result with
      | none => some "Cannot remap counts without an API response!"
      | some d =>
        if d.nonempty = false then some "Cannot remap counts without an API response!"
        else if d.qubits = none then some "Cannot remap counts without qubits!"
        else if d.metadata = none then some "Cannot remap counts without metadata!"
        else if d.data = none then some "Cannot remap counts without result data!"
        else none := by
  cases result with
  | none => rfl
  | some d =>
    obtain ⟨ne, q, md, dat⟩ := d
    cases ne <;> cases q <;> cases md <;> cases dat <;> rfl

/-! ## Job lifecycle (`ionq_job.IonQJob`)

Also modelled from the specification, since the `ionq_job` module is missing
from the snapshot: job states, the submit precondition, the status
short-circuit and the result-fetch timeout translation. -/

/-- Modelled from the spec: the job status enumeration — initializing (no
server id yet), submitted/queued, running, and the terminal states completed,
cancelled and error (`ionq_job` is not under `src/`). -/
inductive JobStatus
  | initializing
  | submitted
  | running
  | completed
  | cancelled
  | error
deriving DecidableEq, Repr

/-- Terminal statuses: completed, cancelled and error, from which no further
transition occurs. -/
def JobStatus.isTerminal : JobStatus → Bool
  | .completed => true
  | .cancelled => true
  | .error => true
  | _ => false

/-- A caller-supplied circuit; only its presence matters to the claims. -/
structure QuantumCircuit where
  num_qubits : Nat
  num_clbits : Nat
deriving DecidableEq, Repr

/-- Modelled from the spec: an `IonQJob` — a server-assigned id (absent until
submit), an optional caller-supplied circuit, and the cached status
(`ionq_job` is not under `src/`). -/
structure IonQJob where
  job_id : Option String
  circuit : Option QuantumCircuit
  _status : JobStatus
deriving DecidableEq, Repr

/-- The network operations the job can ask its API client to perform; a run of
the model records which of them were invoked. -/
inductive ClientCall
  | submit_job
  | retrieve_job (job_id : String)
  | cancel_job (job_id : String)
deriving DecidableEq, Repr

/-- Modelled from the spec: `IonQJob.submit` — fails fast with a fixed-message
domain error when no circuit was supplied, making no network call; otherwise
calls the client's `submit_job` and transitions to the server-assigned id
(`serverId` stands for the id in the server's response) with status submitted
(`ionq_job` is not under `src/`). -/
def IonQJob.submit (job : IonQJob) (serverId : String) :
    Except IonQJobError IonQJob × List ClientCall :=
  match job.circuit with
  | none =>
    (.error ⟨"Cannot submit a job without a circuit. Please create a job with a circuit and try again."⟩,
      [])
  | some _ =>
    (.ok { job with job_id := some serverId, _status := .submitted }, [.submit_job])

/-- Modelled from the spec: `IonQJob.status` — returns initializing without a
network call when no server id exists yet; returns the cached status without a
network call once a terminal status is cached; otherwise fetches the status
from the server (`serverStatus` stands for the status in the server's
response) via the client's `retrieve_job` and caches it (`ionq_job` is not
under `src/`). -/
def IonQJob.status (job : IonQJob) (serverStatus : JobStatus) :
    JobStatus × IonQJob × List ClientCall :=
  match job.job_id with
  | none => (.initializing, job, [])
  | some jid =>
    if job._status.isTerminal then (job._status, job, [])
    else (serverStatus, { job with _status := serverStatus }, [.retrieve_job jid])

/-- Modelled from the spec: the outcome of the host SDK's
`wait_for_final_state` primitive during result fetching — either it raised its
timeout error, or it finished and the job's raw result document is available
(`ionq_job` is not under `src/`). -/
inductive WaitOutcome
  | timeout
  | finished (response : Option RawDoc)
deriving DecidableEq, Repr

/-- The exceptions `IonQJob.result` can raise: the domain job error and the
domain job timeout error, each carrying a fixed message. -/
inductive JobExc
  | jobError (message : String)
  | jobTimeoutError (message : String)
deriving DecidableEq, Repr

/-- Modelled from the spec: `IonQJob.result` — blocks via the host SDK's wait
primitive; a timeout raised there is converted into the domain job timeout
error with a fixed message; otherwise the raw result document is remapped into
counts (`ionq_job` is not under `src/`). -/
def IonQJob.result (_job : IonQJob) (wait : WaitOutcome) :
    Except JobExc (List (String × Int)) :=
  match wait with
  | .timeout => .error (.jobTimeoutError "Timed out waiting for job to complete.")
  | .finished response =>
    match _remap_counts response with
    | .error e => .error (.jobError e.message)
    | .ok counts => .ok counts

/-! ## Theorems: job lifecycle -/

/-- C5: for every job created without a circuit, submit raises the job error
with exactly the documented message and makes no network call (the recorded
client-call list is empty), whatever id the server would have assigned. -/
theorem submit_without_circuit (job : IonQJob) (serverId : String)
    (h : job.circuit = none) :
    job.submit serverId =
      (.error ⟨"Cannot submit a job without a circuit. Please create a job with a circuit and try again."⟩,
        []) := by
  unfold IonQJob.submit
  rw [h]

/-- Witness for C5 at a concrete input: a job holding only a server id and no
circuit. -/
theorem submit_without_circuit_witness :
    (IonQJob.submit { job_id := some "test_id", circuit := none, _status := .initializing }
        "server_job_id") =
      (.error ⟨"Cannot submit a job without a circuit. Please create a job with a circuit and try again."⟩,
        []) :=
  submit_without_circuit
    { job_id := some "test_id", circuit := none, _status := .initializing }
    "server_job_id" rfl

/-- C6: for every job whose wait-for-terminal-state step during result
fetching raises the host SDK's timeout error, result() raises the domain job
timeout error with exactly the message
"Timed out waiting for job to complete." -/
theorem result_timeout (job : IonQJob) :
    job.result .timeout =
      .error (.jobTimeoutError "Timed out waiting for job to complete.") := rfl

/-- C7: status() short-circuits the network: with no server id it returns
initializing and records no client call; with an id and a cached terminal
status it returns the cached status and records no client call; only with an
id and a non-terminal cached status does it fetch (recording exactly one
`retrieve_job` call) and cache the server's status. -/
theorem status_short_circuit (job : IonQJob) (serverStatus : JobStatus) :
    job.status serverStatus =
      match job.job_id with
      | none => (JobStatus.initializing, job, [])
      | some jid =>
        if job._status.isTerminal then (job._status, job, [])
        else (serverStatus, { job with _status := serverStatus },
          [ClientCall.retrieve_job jid]) := by
  unfold IonQJob.status
  rfl

/-! ## Theorems: shot-count invariant of the remapper -/

/-- The total occurrence count of a counts mapping. -/
def sumCounts (counts : List (String × Int)) : Int :=
  (counts.map Prod.snd).sum

/-- Additive accumulation adds its weight to the total. -/
theorem sumCounts_addCount (counts : List (String × Int)) (key : String) (c : Int) :
    sumCounts (addCount counts key c) = sumCounts counts + c := by
  induction counts with
  | nil => simp [addCount, sumCounts]
  | cons hd tl ih =>
    obtain ⟨k, v⟩ := hd
    by_cases h : k = key
    · simp only [addCount, if_pos h, sumCounts, List.map_cons, List.sum_cons]
      ring
    · simp only [addCount, if_neg h, sumCounts, List.map_cons, List.sum_cons] at ih ⊢
      rw [ih]
      ring

/-- The remapping fold accumulates exactly the integer weights of the
histogram entries. -/
theorem sumCounts_remapFold (qubits : Nat) (md : ResultMetadata) (hist : List (Nat × ℚ))
    (acc : List (String × Int)) :
    sumCounts (hist.foldl
      (fun acc e =>
        addCount acc (outcomeBitstring md.output_map qubits e.1 md.memory_slots)
          (round (e.2 * (md.shots : ℚ)))) acc) =
      sumCounts acc + (hist.map (fun e => round (e.2 * (md.shots : ℚ)))).sum := by
  induction hist generalizing acc with
  | nil => simp
  | cons e t ih =>
    simp only [List.foldl_cons, List.map_cons, List.sum_cons]
    rw [ih, sumCounts_addCount]
    ring

/-- The total of the remapped counts is the sum of the rounded per-entry
weights. -/
theorem sumCounts_remapHistogram (qubits : Nat) (md : ResultMetadata)
    (hist : List (Nat × ℚ)) :
    sumCounts (remapHistogram qubits md hist) =
      (hist.map (fun e => round (e.2 * (md.shots : ℚ)))).sum := by
  have h := sumCounts_remapFold qubits md hist []
  simpa [remapHistogram, sumCounts] using h

/-- Summing rounded rationals stays within half a unit per entry of the exact
sum. -/
theorem round_sum_err (l : List ℚ) :
    |(((l.map (fun q => round q)).sum : ℤ) : ℚ) - l.sum| ≤ (l.length : ℚ) / 2 := by
  induction l with
  | nil => simp
  | cons q t ih =>
    simp only [List.map_cons, List.sum_cons, List.length_cons]
    rw [Int.cast_add, Nat.cast_add, Nat.cast_one]
    have h1 : |((round q : ℤ) : ℚ) - q| ≤ 1 / 2 := by
      rw [abs_sub_comm]
      exact abs_sub_round q
    have key : ((round q : ℤ) : ℚ) + (((t.map fun a => round a).sum : ℤ) : ℚ) - (q + t.sum) =
        (((round q : ℤ) : ℚ) - q) + ((((t.map fun a => round a).sum : ℤ) : ℚ) - t.sum) := by
      ring
    rw [key]
    have habs := abs_add (((round q : ℤ) : ℚ) - q)
      ((((t.map fun a => round a).sum : ℤ) : ℚ) - t.sum)
    linarith [habs, h1, ih]

/-- C3: for every well-formed raw result document (non-empty, with qubits,
metadata and result data present) whose histogram weights form a probability
distribution, the total of the remapped integer counts equals the shot count
up to the rounding of each probability-times-shots weight: the difference is
at most half a unit per histogram entry. -/
theorem remap_counts_shot_invariant (qubits shots width : Nat)
    (omap : List (Nat × Nat)) (hist : List (Nat × ℚ)) (counts : List (String × Int))
    (hok : _remap_counts (some
      { nonempty := true
        qubits := some qubits
        metadata := some { shots := shots, output_map := omap, memory_slots := width }
        data := some { histogram := hist } }) = .ok counts)
    (hdist : (hist.map Prod.snd).sum = 1) :
    |((sumCounts counts : ℤ) : ℚ) - (shots : ℚ)| ≤ (hist.length : ℚ) / 2 := by
  have hstep : _remap_counts (some
      { nonempty := true
        qubits := some qubits
        metadata := some { shots := shots, output_map := omap, memory_slots := width }
        data := some { histogram := hist } }) =
      .ok (remapHistogram qubits ⟨shots, omap, width⟩ hist) := rfl
  rw [hstep] at hok
  have hc : counts = remapHistogram qubits ⟨shots, omap, width⟩ hist :=
    (Except.ok.inj hok).symm
  subst hc
  rw [sumCounts_remapHistogram]
  have hmap : (hist.map (fun e => round (e.2 * (((⟨shots, omap, width⟩ : ResultMetadata)).shots : ℚ)))) =
      (hist.map (fun e => e.2 * ((shots : ℕ) : ℚ))).map (fun q => round q) := by
    rw [List.map_map]
    rfl
  rw [hmap]
  have hsum : (hist.map (fun e => e.2 * ((shots : ℕ) : ℚ))).sum = ((shots : ℕ) : ℚ) := by
    rw [List.sum_map_mul_right, hdist, one_mul]
  have hlen : (hist.map (fun e => e.2 * ((shots : ℕ) : ℚ))).length = hist.length :=
    List.length_map _ _
  have h := round_sum_err (hist.map (fun e => e.2 * ((shots : ℕ) : ℚ)))
  rw [hsum, hlen] at h
  exact h

/-- Witness for C3 at the concrete document of `test_remap_counts`: two
histogram entries of weight one half each, 100 shots, counts totalling 100. -/
theorem remap_counts_shot_invariant_witness :
    |((sumCounts [("011", 50), ("111", 50)] : ℤ) : ℚ) - ((100 : ℕ) : ℚ)| ≤
      ((([((5 : ℕ), (1/2 : ℚ)), (7, 1/2)]).length : ℚ)) / 2 :=
  remap_counts_shot_invariant 3 100 3 [(0, 0), (1, 2), (2, 1)] [(5, 1/2), (7, 1/2)]
    [("011", 50), ("111", 50)]
    (by
      have step : _remap_counts (some
          { nonempty := true
            qubits := some 3
            metadata := some
              { shots := 100, output_map := [(0, 0), (1, 2), (2, 1)], memory_slots := 3 }
            data := some { histogram := [(5, 1/2), (7, 1/2)] } }) =
          .ok [("011", round ((1/2 : ℚ) * ((100 : ℕ) : ℚ))),
               ("111", round ((1/2 : ℚ) * ((100 : ℕ) : ℚ)))] := rfl
      have hr : round ((1/2 : ℚ) * ((100 : ℕ) : ℚ)) = 50 := by norm_num [round_eq]
      rw [step, hr])
    (by norm_num)
